import Mathlib

/-!
Verification of the goat-core analysis engines against their specification.

The definitions below are a shallow embedding of the Python source:

- `src/crud/crud_isochrone.py` — isochrone starting-point staging
  (`CRUDIsochroneBase.create_or_return_layer_starting_points`);
- `src/crud/crud_geoanalysis.py` — aggregation engines, origin-destination
  engine, temp-table naming;
- `src/crud/crud_layer.py` — feature-count guard;
- `src/schemas/toolbox_base.py` and `src/schemas/active_mobility.py` —
  request validators for isochrone starting points.

Database effects are modelled explicitly: SQL statements that the code
interpolates and executes are translated to Lean functions over lists
(rows), and the sequencing of statements is modelled as event traces or
`Except` results where a claim is about ordering or raised errors.
Coordinates and numeric column values are modelled as rationals.
-/

/-! ## Isochrone staging (src/crud/crud_isochrone.py) -/

/-- Semantics of `FROM UNNEST(ARRAY[lats]) AS lat, UNNEST(ARRAY[lons]) AS lon`:
two set-returning functions joined by a comma in the FROM clause form a
cartesian product, so the query ranges over every (lat, lon) combination of
the two slices, not over the zipped point list. -/
def unnest_pairs (lats lons : List ℚ) : List (ℚ × ℚ) :=
  lats.flatMap (fun a => lons.map (fun b => (a, b)))

/-- The `SELECT COUNT(*) ... WHERE NOT EXISTS (... ST_INTERSECTS ...)` query of
`create_or_return_layer_starting_points`: the number of rows of the
UNNEST cross product that do not intersect the geofence. The geofence is
abstracted as a decidable point predicate. -/
def cnt_not_intersecting (geofence : ℚ × ℚ → Bool) (lats lons : List ℚ) : Nat :=
  ((unnest_pairs lats lons).filter (fun p => !geofence p)).length

/-- Batch start indices of `range(0, len(lat), 500)`. -/
def batch_starts (n : Nat) : List Nat :=
  List.range' 0 ((n + 499) / 500) 500

/-- The geofence validation loop: for each batch start `i` the slices
`lat[i:i+500]` and `lon[i:i+500]` are tested; the first batch whose
out-of-geofence count is positive raises `OutOfGeofenceError` with that
count (modelled as `some count`); `none` means every batch passed. -/
def validate_batches (geofence : ℚ × ℚ → Bool) (lat lon : List ℚ) : Option Nat :=
  (batch_starts lat.length).findSome? (fun i =>
    let c := cnt_not_intersecting geofence ((lat.drop i).take 500) ((lon.drop i).take 500)
    if c > 0 then some c else none)

/-- The insertion loop: for each batch the `INSERT ... SELECT ... FROM
UNNEST(...), UNNEST(...)` statement inserts the cross product of the two
slices into the starting-points table. -/
def insert_batches (lat lon : List ℚ) : List (ℚ × ℚ) :=
  (batch_starts lat.length).flatMap (fun i =>
    unnest_pairs ((lat.drop i).take 500) ((lon.drop i).take 500))

/-- Outcome of `create_or_return_layer_starting_points`: the raised
out-of-geofence count if any, the rows inserted into the starting-points
table, and whether an existing layer was returned instead. -/
structure StagingResult where
  raised : Option Nat
  inserted : List (ℚ × ℚ)
  used_existing_layer : Bool
deriving DecidableEq

/-- Embedding of `CRUDIsochroneBase.create_or_return_layer_starting_points`:
if a layer id is supplied the layer is returned directly; otherwise all
validation batches run first (an error aborts with no insertion), then the
insertion batches run. -/
def create_or_return_layer_starting_points (layer_project_id : Option String)
    (geofence : ℚ × ℚ → Bool) (lat lon : List ℚ) : StagingResult :=
  if layer_project_id.isSome then
    ⟨none, [], true⟩
  else
    match validate_batches geofence lat lon with
    | some c => ⟨some c, [], false⟩
    | none => ⟨none, insert_batches lat lon, false⟩

/-- A geofence covering exactly the points with first coordinate 0. -/
def demo_geofence (p : ℚ × ℚ) : Bool :=
  decide (p.1 = 0)

/-! ## Feature-count guard (src/crud/crud_layer.py) -/

/-- Result dictionary of `CRUDLayer.get_feature_cnt`: `total_count` is always
present, `filtered_count` only when a where clause was in effect. -/
structure FeatureCnt where
  total_count : Nat
  filtered_count : Option Nat
deriving DecidableEq

/-- Embedding of `CRUDLayer.get_feature_cnt`: the two counts are supplied by
the database; `has_where` abstracts whether `build_where_clause` produced a
non-empty filter (from the passed where query or the layer default). -/
def get_feature_cnt (total_count_db filtered_count_db : Nat) (has_where : Bool) : FeatureCnt :=
  ⟨total_count_db, if has_where then some filtered_count_db else none⟩

/-- The 422 detail message raised by `check_exceed_feature_cnt`, naming the
configured maximum. -/
def max_exceeded_msg (max_feature_cnt : Nat) : String :=
  "Operation not supported. The layer contains more than " ++ toString max_feature_cnt
    ++ " features. Please apply a filter to reduce the number of features."

/-- Typed resource-limit error of the feature-count guard. -/
inductive LimitError where
  | resource_limit (msg : String)
deriving DecidableEq

/-- Embedding of `CRUDLayer.check_exceed_feature_cnt`: checks the filtered
count when present, the total count otherwise, and raises when the count
strictly exceeds the maximum. -/
def check_exceed_feature_cnt (max_feature_cnt : Nat) (feature_cnt : FeatureCnt) :
    Except LimitError FeatureCnt :=
  let cnt_to_check :=
    match feature_cnt.filtered_count with
    | some c => c
    | none => feature_cnt.total_count
  if cnt_to_check > max_feature_cnt then
    .error (.resource_limit (max_exceeded_msg max_feature_cnt))
  else
    .ok feature_cnt

/-! ## Isochrone starting-point request validators (src/schemas/toolbox_base.py,
src/schemas/active_mobility.py) -/

/-- Python truthiness of an optional list value from the raw values dict:
absent and empty lists are falsy. -/
def truthy_list (o : Option (List ℚ)) : Bool :=
  match o with
  | none => false
  | some l => !l.isEmpty

/-- Embedding of the pre root validator
`IsochroneStartingPointsBase.check_either_coords_or_layer_project_id`.
The two sequential `if` statements of the Python function are mirrored;
the second check runs whenever the first block did not raise. -/
def check_either_coords_or_layer_project_id (lat lon : Option (List ℚ))
    (layer_project_id : Option String) : Except String Unit :=
  if truthy_list lat && truthy_list lon then
    if layer_project_id.isSome then
      .error "Either provide latitude and longitude or layer_project_id, not both."
    else if (lat.getD []).length ≠ (lon.getD []).length then
      .error "Latitude and longitude must have the same length."
    else if (lat.getD []).any (fun v => decide (v < -90) || decide (v > 90)) then
      .error "Latitude must be between -90 and 90."
    else if (lon.getD []).any (fun v => decide (v < -180) || decide (v > 180)) then
      .error "Longitude must be between -180 and 180."
    else if !(truthy_list lat && truthy_list lon) && layer_project_id.isNone then
      .error "Must provide either latitude and longitude or layer_project_id."
    else
      .ok ()
  else
    if !(truthy_list lat && truthy_list lon) && layer_project_id.isNone then
      .error "Must provide either latitude and longitude or layer_project_id."
    else
      .ok ()

/-- Embedding of the pre root validator
`IsochroneStartingPointsActiveMobility.check_starting_points`: when both
coordinate lists are truthy, each list may hold at most 1000 entries. -/
def check_starting_points (lat lon : Option (List ℚ)) : Except String Unit :=
  if truthy_list lat && truthy_list lon then
    if (lat.getD []).length > 1000 then
      .error "The maximum number of starting points is 1000."
    else if (lon.getD []).length > 1000 then
      .error "The maximum number of starting points is 1000."
    else
      .ok ()
  else
    .ok ()

/-- Combined request validation of active-mobility starting points: pydantic
runs the inherited base validator first, then the subclass validator; both
run before any job or database interaction. -/
def validate_starting_points_active_mobility (lat lon : Option (List ℚ))
    (layer_project_id : Option String) : Except String Unit :=
  match check_either_coords_or_layer_project_id lat lon layer_project_id with
  | .error e => .error e
  | .ok _ => check_starting_points lat lon

/-! ## Aggregation statistics (src/crud/crud_geoanalysis.py) -/

/-- Statistic operations of `ColumnStatisticsOperation`
(src/schemas/toolbox_base.py). -/
inductive StatOperation where
  | count
  | sum
  | mean
  | median
  | min
  | max
deriving DecidableEq

/-- Modelled from the spec: semantics of the SQL aggregate emitted by
`get_statistics_sql` (src/core/tool.py is not among the sources). The
operation set is `count|sum|mean|median|min|max`; `median` follows
continuous-percentile semantics (mean of the two middle values for even
cardinality). -/
def compute_statistic (op : StatOperation) (vals : List ℚ) : ℚ :=
  match op with
  | .count => vals.length
  | .sum => vals.sum
  | .mean => if vals.length = 0 then 0 else vals.sum / vals.length
  | .median =>
    let s := vals.insertionSort (· ≤ ·)
    let n := s.length
    if n = 0 then 0
    else if n % 2 = 1 then s.getD (n / 2) 0
    else (s.getD (n / 2 - 1) 0 + s.getD (n / 2) 0) / 2
  | .min => (vals.min?).getD 0
  | .max => (vals.max?).getD 0

/-- PostgreSQL `round(x::numeric, 6)`: half-away-from-zero rounding of the
scaled value. -/
def round_half_away (x : ℚ) : ℤ :=
  if 0 ≤ x then ⌊x + 1 / 2⌋ else ⌈x - 1 / 2⌉

/-- Value of `round((x)::numeric, 6)` as interpolated in the polygon
aggregation queries. -/
def pg_round_6 (x : ℚ) : ℚ :=
  (round_half_away (x * 1000000) : ℚ) / 1000000

/-- A value is stored 6-decimal-rounded when re-rounding does not change it. -/
def is_rounded_6 (x : ℚ) : Prop :=
  pg_round_6 x = x

/-- Total-stats stage of `CRUDAggregatePoint.aggregate_point` in the
aggregation-layer branch: the spatially joined rows are pairs of a zone id
and the mapped statistics-field value of one intersecting source point;
the stage groups by zone id and stores the bare statistic
(`SELECT {temp_aggregation}.id, {statistics_column_query} AS stats`). -/
def total_stats_point (op : StatOperation) (rows : List (ℤ × ℚ)) : List (ℤ × ℚ) :=
  (rows.map Prod.fst).dedup.map (fun z =>
    (z, compute_statistic op ((rows.filter (fun r => r.1 == z)).map Prod.snd)))

/-- Total-stats stage of `CRUDAggregatePolygon.aggregate_polygon` in the
aggregation-layer branch: each joined row carries the zone id, the mapped
statistics-field value and the area fraction
`ST_AREA(ST_INTERSECTION(zone.geom, src.geom)) / ST_AREA(src.geom)`; with
area weighting the statistic is multiplied by the summed fraction, and the
result is stored as `round((...)::numeric, 6)`. -/
def total_stats_polygon (op : StatOperation) (weighted : Bool)
    (rows : List (ℤ × ℚ × ℚ)) : List (ℤ × ℚ) :=
  (rows.map Prod.fst).dedup.map (fun z =>
    let grp := rows.filter (fun r => r.1 == z)
    let base := compute_statistic op (grp.map (fun r => r.2.1))
    let v := if weighted then base * (grp.map (fun r => r.2.2)).sum else base
    (z, pg_round_6 v))

/-! ## Temp-table naming (src/crud/crud_geoanalysis.py, class constructors) -/

/-- Python `str(job_id).replace('-', '')`. -/
def strip_dashes (s : String) : String :=
  ⟨s.data.filter (fun c => c != '-')⟩

/-- Name of the job-scoped total-stats temp table
(`CRUDAggregateBase.__init__`). -/
def table_name_total_stats (job_id : String) : String :=
  "temporal.total_stats_" ++ strip_dashes job_id

/-- Name of the job-scoped grouped-stats temp table
(`CRUDAggregateBase.__init__`). -/
def table_name_grouped_stats (job_id : String) : String :=
  "temporal.grouped_stats_" ++ strip_dashes job_id

/-- Name of the job-scoped pre-grouped temp table
(`CRUDAggregatePolygon.__init__`). -/
def table_name_pre_grouped (job_id : String) : String :=
  "temporal.h3_pregrouped_" ++ strip_dashes job_id

/-- Canonically formatted UUID string data: five dash-free groups of lengths
8, 4, 4, 4 and 12 joined by dashes. Job ids are UUIDs rendered in this
form, in which dashes are the only non-alphanumeric characters. -/
def IsCanonicalUuidData (l : List Char) : Prop :=
  ∃ a b c d e : List Char,
    a.length = 8 ∧ b.length = 4 ∧ c.length = 4 ∧ d.length = 4 ∧ e.length = 12 ∧
    (∀ ch ∈ a, ch ≠ '-') ∧ (∀ ch ∈ b, ch ≠ '-') ∧ (∀ ch ∈ c, ch ≠ '-') ∧
    (∀ ch ∈ d, ch ≠ '-') ∧ (∀ ch ∈ e, ch ≠ '-') ∧
    l = a ++ '-' :: (b ++ '-' :: (c ++ '-' :: (d ++ '-' :: e)))

/-- Canonically formatted UUID string. -/
def IsCanonicalUuid (s : String) : Prop :=
  IsCanonicalUuidData s.data

/-- Decidability of the 6-decimal-rounding predicate. -/
instance (x : ℚ) : Decidable (is_rounded_6 x) :=
  inferInstanceAs (Decidable (pg_round_6 x = x))

/-! ## Origin-destination engine (src/crud/crud_geoanalysis.py,
`CRUDOriginDestination.origin_destination`) -/

/-- A feature of the geometry (node) layer: the mapped unique-id column value
and the geometry. -/
structure GeomFeature where
  uid : ℤ
  geom : ℚ × ℚ
deriving DecidableEq

/-- A row of the origin-destination matrix layer: mapped origin, destination
and weight column values. -/
structure MatrixRow where
  origin : ℤ
  dest : ℤ
  weight : ℚ
deriving DecidableEq

/-- A row inserted into the relation result layer. -/
structure RelationRow where
  origin : ℤ
  dest : ℤ
  weight : ℚ
deriving DecidableEq

/-- The three-way join of `sql_query_relations`:
`FROM geometry origin, geometry destination, matrix WHERE origin.uid =
matrix.origin AND destination.uid = matrix.dest`. -/
def od_join (geom : List GeomFeature) (matrix : List MatrixRow) :
    List (MatrixRow × GeomFeature × GeomFeature) :=
  matrix.flatMap (fun m =>
    (geom.filter (fun o => o.uid == m.origin)).flatMap (fun o =>
      (geom.filter (fun d => d.uid == m.dest)).map (fun d => (m, o, d))))

/-- The `GROUP BY matrix.origin, matrix.dest` keys of the join, one per
distinct pair. -/
def od_relation_pairs (geom : List GeomFeature) (matrix : List MatrixRow) :
    List (ℤ × ℤ) :=
  ((od_join geom matrix).map (fun r => (r.1.origin, r.1.dest))).dedup

/-- Rows inserted by `sql_query_relations`: one row per group with
`SUM(matrix.weight)` over the group (the centroid line geometry column is
not modelled). -/
def od_relation_rows (geom : List GeomFeature) (matrix : List MatrixRow) :
    List RelationRow :=
  (od_relation_pairs geom matrix).map (fun p =>
    ⟨p.1, p.2,
      (((od_join geom matrix).filter (fun r => (r.1.origin, r.1.dest) == p)).map
        (fun r => r.1.weight)).sum⟩)

/-- Distinct (origin, destination) pairs present in the matrix layer. -/
def matrix_pairs (matrix : List MatrixRow) : List (ℤ × ℤ) :=
  (matrix.map (fun m => (m.origin, m.dest))).dedup

/-- A pair is matched when some geometry feature carries its origin id and
some geometry feature carries its destination id. -/
def pair_matched (geom : List GeomFeature) (p : ℤ × ℤ) : Bool :=
  geom.any (fun g => g.uid == p.1) && geom.any (fun g => g.uid == p.2)

/-- Python `s.split("_")[0]`: the characters of a mapped column name such as
`integer_attr1` before the first underscore — its generic type family. -/
def type_family (s : String) : String :=
  ⟨s.data.takeWhile (fun c => c != '_')⟩

/-- Typed column-type error (`ColumnTypeError` in src/schemas/error.py). -/
inductive OdError where
  | column_type (msg : String)
deriving DecidableEq

/-- Observable steps of `origin_destination` that touch the database or the
layer repository. -/
inductive OdEvent where
  | get_layers
  | create_temp_table
  | create_index
  | commit
  | insert_relations
  | insert_points
  | register_layer
deriving DecidableEq

/-- Message of the id-column type mismatch error. -/
def od_id_mismatch_msg : String :=
  "The unique_id, origin and destination column must be of the same type"

/-- Modelled from the spec: the numeric members of `OgrPostgresType` named by
the weight-column check (src/schemas/layer.py is not among the sources);
the generic slot scheme uses typed family prefixes such as `integer`. -/
def ogr_numeric_families : List String :=
  ["integer", "float", "bigint"]

/-- Message of the weight-column type error (interpolates the numeric
family names). -/
def od_weight_mismatch_msg : String :=
  "Mapped weight field is not integer, float, bigint."

/-- Validation and statement order of
`CRUDOriginDestination.origin_destination`, given the four mapped column
names: the id-column family check runs first, then the weight-family
check; only then are the two temp tables created, indexed and committed,
the relation and point rows inserted, and the two result layers
registered. The pair holds the raised error (if any) and the emitted
event trace. -/
def origin_destination_run (mapped_unique_id_column mapped_origin_column
    mapped_destination_column mapped_weight_column : String) :
    Except OdError Unit × List OdEvent :=
  if type_family mapped_unique_id_column = type_family mapped_origin_column
      ∧ type_family mapped_unique_id_column = type_family mapped_destination_column then
    if type_family mapped_weight_column ∈ ogr_numeric_families then
      (.ok (), [.get_layers, .create_temp_table, .create_index, .commit,
        .create_temp_table, .create_index, .commit, .insert_relations,
        .insert_points, .register_layer, .register_layer])
    else
      (.error (.column_type od_weight_mismatch_msg), [.get_layers])
  else
    (.error (.column_type od_id_mismatch_msg), [.get_layers])

/-- One step of the `while ... in attribute_mapping_relation: count_attr += 1`
loop, with explicit fuel (the loop can visit at most one slot per existing
key before finding a free one, so the fuel below never runs out). -/
def probe_attr_go (pre : String) (keys : List String) : Nat → Nat → Nat
  | 0, n => n
  | fuel + 1, n =>
    if (pre ++ "_attr" ++ toString n) ∈ keys then probe_attr_go pre keys fuel (n + 1)
    else n

/-- The probed slot suffix: first `count_attr` starting from 1 whose slot name
is not yet a key. -/
def probe_attr (pre : String) (keys : List String) : Nat :=
  probe_attr_go pre keys (keys.length + 1) 1

/-- Construction of `attribute_mapping_relation` in `origin_destination`,
given the type families of the mapped unique-id and weight columns: the
two id slots are assigned first; the weight goes to suffix-1 of its family
unless that key is taken, in which case successive suffixes are probed. -/
def build_attribute_mapping_relation (uid_family weight_family : String) :
    List (String × String) :=
  let base := [(uid_family ++ "_attr1", "origin"), (uid_family ++ "_attr2", "destination")]
  if weight_family ++ "_attr1" ∈ base.map Prod.fst then
    base ++ [(weight_family ++ "_attr" ++ toString (probe_attr weight_family (base.map Prod.fst)), "weight")]
  else
    base ++ [(weight_family ++ "_attr1", "weight")]

/-! ## Aggregation pipeline order (src/crud/crud_geoanalysis.py,
`aggregate_point` and `aggregate_polygon`) -/

/-- Observable steps of the aggregation pipelines. -/
inductive AggEvent where
  | create_table_total_stats
  | create_table_grouped_stats
  | create_table_pre_grouped
  | create_index
  | fetch_edge_length
  | insert_result_rows
  | register_result_layer
  | delete_temp_tables
  | return_finished
deriving DecidableEq

/-- Statement order of `CRUDAggregatePoint.aggregate_point` after
`prepare_aggregation`: both the aggregation-layer branch and the h3-grid
branch create the total-stats table and its index, optionally the
grouped-stats table and its index; the combined insert, the result-layer
registration, the temp-table deletion and the finished return follow
outside the branch. -/
def aggregate_point_events (has_aggregation_layer has_group_by : Bool) : List AggEvent :=
  (if has_aggregation_layer then
      [.create_table_total_stats, .create_index]
        ++ (if has_group_by then [.create_table_grouped_stats, .create_index] else [])
    else
      [.create_table_total_stats, .create_index]
        ++ (if has_group_by then [.create_table_grouped_stats, .create_index] else []))
    ++ [.insert_result_rows, .register_result_layer, .delete_temp_tables, .return_finished]

/-- Statement order of `CRUDAggregatePolygon.aggregate_polygon` after
`prepare_aggregation`: the h3 branch additionally fetches the average edge
length and materializes the pre-grouped table before the total-stats
table; the tail is the same as for points. -/
def aggregate_polygon_events (has_aggregation_layer has_group_by : Bool) : List AggEvent :=
  (if has_aggregation_layer then
      [.create_table_total_stats, .create_index]
        ++ (if has_group_by then [.create_table_grouped_stats, .create_index] else [])
    else
      [.fetch_edge_length, .create_table_pre_grouped, .create_index,
        .create_table_total_stats, .create_index]
        ++ (if has_group_by then [.create_table_grouped_stats, .create_index] else []))
    ++ [.insert_result_rows, .register_result_layer, .delete_temp_tables, .return_finished]

/-! ## Helper lemmas -/

theorem string_append_left_cancel {s a b : String} (h : s ++ a = s ++ b) : a = b := by
  have hd := congrArg String.data h
  rw [String.data_append, String.data_append] at hd
  exact String.ext (List.append_cancel_left hd)

theorem string_append_inj_right {a b s t : String} (h : a ++ s = b ++ t)
    (hl : s.length = t.length) : a = b ∧ s = t := by
  have hd := congrArg String.data h
  rw [String.data_append, String.data_append] at hd
  obtain ⟨h1, h2⟩ := List.append_inj' hd hl
  exact ⟨String.ext h1, String.ext h2⟩

theorem string_append_ne_at {p q : String} (i : Nat) (hip : i < p.data.length)
    (hiq : i < q.data.length) (hne : p.data[i]? ≠ q.data[i]?) (x y : String) :
    p ++ x ≠ q ++ y := by
  intro h
  apply hne
  have hd := congrArg String.data h
  rw [String.data_append, String.data_append] at hd
  calc p.data[i]? = (p.data ++ x.data)[i]? := (List.getElem?_append_left hip).symm
    _ = (q.data ++ y.data)[i]? := by rw [hd]
    _ = q.data[i]? := List.getElem?_append_left hiq

theorem round_half_away_intCast (k : ℤ) : round_half_away (k : ℚ) = k := by
  unfold round_half_away
  split_ifs with h
  · rw [add_comm, Int.floor_add_int]
    norm_num
  · rw [sub_eq_add_neg, add_comm, Int.ceil_add_int]
    norm_num

theorem pg_round_6_idem (x : ℚ) : pg_round_6 (pg_round_6 x) = pg_round_6 x := by
  unfold pg_round_6
  rw [div_mul_cancel₀ _ (by norm_num : (1000000 : ℚ) ≠ 0), round_half_away_intCast]

/-! ## Claim theorems -/

/-- C1 (code_bug demonstration): the geofence validation query counts rows of
the UNNEST cartesian product of the latitude and longitude slices, not
offending starting points. For the request with the two starting points
(0, 0) and (1, 1) and a geofence covering exactly the points with first
coordinate 0, exactly one starting point is out of the geofence, yet the
code raises `OutOfGeofenceError` reporting 2 (the combinations (1, 0) and
(1, 1)); no row is inserted. -/
theorem C1_geofence_validation_counts_cross_product :
    create_or_return_layer_starting_points none demo_geofence [0, 1] [0, 1]
        = ⟨some 2, [], false⟩
      ∧ ((List.zip ([0, 1] : List ℚ) ([0, 1] : List ℚ)).filter
          (fun p => !demo_geofence p)).length = 1 := by
  decide

/-- C2 (counterexample): the total-stats stage of the point aggregation
stores the bare statistic. A zone whose joined points have statistic value
1/7 stores exactly 1/7, which is not a 6-decimal-rounded value. -/
theorem C2_point_total_stats_unrounded_value :
    total_stats_point .sum [((0 : ℤ), (1 / 7 : ℚ))] = [(0, 1 / 7)]
      ∧ ¬ is_rounded_6 (1 / 7 : ℚ) := by
  have h1 : round_half_away (1 / 7 * 1000000 : ℚ) = 142857 := by
    unfold round_half_away
    rw [if_pos (by norm_num)]
    norm_num
  constructor
  · simp [total_stats_point, compute_statistic]
  · simp only [is_rounded_6, pg_round_6, h1]
    norm_num

/-- C2 (amended): rounding to 6 decimal places is applied in the polygon
aggregation total-stats stage (`round((...)::numeric, 6)`), while the
point aggregation total-stats stage stores the raw statistic without
rounding. -/
theorem C2_rounding_applies_to_polygon_paths (op : StatOperation) (weighted : Bool)
    (rows_pg : List (ℤ × ℚ × ℚ)) (rows_pt : List (ℤ × ℚ)) :
    (∀ z v, (z, v) ∈ total_stats_polygon op weighted rows_pg → is_rounded_6 v)
    ∧ (∀ z v, (z, v) ∈ total_stats_point op rows_pt →
        v = compute_statistic op ((rows_pt.filter (fun r => r.1 == z)).map Prod.snd)) := by
  constructor
  · intro z v hv
    simp only [total_stats_polygon, List.mem_map] at hv
    obtain ⟨z0, _, heq⟩ := hv
    rw [Prod.mk.injEq] at heq
    obtain ⟨rfl, rfl⟩ := heq
    show pg_round_6 _ = _
    exact pg_round_6_idem _
  · intro z v hv
    simp only [total_stats_point, List.mem_map] at hv
    obtain ⟨z0, _, heq⟩ := hv
    rw [Prod.mk.injEq] at heq
    obtain ⟨rfl, rfl⟩ := heq
    rfl

/-- C2 (witness): the polygon rounding part applied at a concrete zone. -/
theorem C2_rounding_applies_to_polygon_paths_witness : is_rounded_6 (1 : ℚ) :=
  (C2_rounding_applies_to_polygon_paths .sum true [((1 : ℤ), (1 : ℚ), (1 : ℚ))] []).1 1 1
    (by
      have h1 : pg_round_6 1 = 1 := by
        unfold pg_round_6 round_half_away
        rw [if_pos (by norm_num)]
        norm_num
      simp [total_stats_polygon, compute_statistic, h1])

/-- C6: the feature-count guard raises the resource-limit error naming the
maximum exactly when the relevant count (filtered when a where filter is
in effect, total otherwise) strictly exceeds the maximum; a count equal
to the maximum passes and the counts are returned. -/
theorem C6_check_exceed_feature_cnt_limit (max_feature_cnt total_count_db filtered_count_db : Nat)
    (has_where : Bool) :
    (check_exceed_feature_cnt max_feature_cnt
          (get_feature_cnt total_count_db filtered_count_db has_where)
        = .error (.resource_limit (max_exceeded_msg max_feature_cnt))
      ↔ (if has_where then filtered_count_db else total_count_db) > max_feature_cnt)
    ∧ ((if has_where then filtered_count_db else total_count_db) = max_feature_cnt →
      check_exceed_feature_cnt max_feature_cnt
          (get_feature_cnt total_count_db filtered_count_db has_where)
        = .ok (get_feature_cnt total_count_db filtered_count_db has_where)) := by
  cases has_where <;>
    simp [check_exceed_feature_cnt, get_feature_cnt] <;>
    omega

/-- C6 (witness): a filtered count equal to the maximum passes. -/
theorem C6_check_exceed_feature_cnt_limit_witness :
    check_exceed_feature_cnt 5 (get_feature_cnt 7 5 true) = .ok (get_feature_cnt 7 5 true) :=
  (C6_check_exceed_feature_cnt_limit 5 7 5 true).2 rfl

/-- C7: in every branch of both aggregation pipelines, the finished status is
the unique last step and is preceded, in order, by the result-row insert,
the result-layer registration and the temp-table deletion. -/
theorem C7_finished_only_after_cleanup (pa pg qa qg : Bool) :
    ((aggregate_point_events pa pg).getLast? = some .return_finished
      ∧ (aggregate_point_events pa pg).count .return_finished = 1
      ∧ List.Sublist
          ([.insert_result_rows, .register_result_layer, .delete_temp_tables,
            .return_finished] : List AggEvent)
          (aggregate_point_events pa pg))
    ∧ ((aggregate_polygon_events qa qg).getLast? = some .return_finished
      ∧ (aggregate_polygon_events qa qg).count .return_finished = 1
      ∧ List.Sublist
          ([.insert_result_rows, .register_result_layer, .delete_temp_tables,
            .return_finished] : List AggEvent)
          (aggregate_polygon_events qa qg)) := by
  cases pa <;> cases pg <;> cases qa <;> cases qg <;> decide

/-- C4: the origin-destination validation raises the id-column type-mismatch
error exactly when the mapped unique-id, origin and destination columns do
not all share one generic type-family prefix, and on that mismatch no temp
table is created, no result row inserted and no layer registered. -/
theorem C4_od_column_type_mismatch_check (u o d w : String) :
    ((origin_destination_run u o d w).1 = .error (.column_type od_id_mismatch_msg)
      ↔ ¬(type_family u = type_family o ∧ type_family u = type_family d))
    ∧ (¬(type_family u = type_family o ∧ type_family u = type_family d) →
        .create_temp_table ∉ (origin_destination_run u o d w).2
        ∧ .insert_relations ∉ (origin_destination_run u o d w).2
        ∧ .insert_points ∉ (origin_destination_run u o d w).2
        ∧ .register_layer ∉ (origin_destination_run u o d w).2) := by
  unfold origin_destination_run
  split_ifs with h1 h2 <;>
    simp_all [od_id_mismatch_msg, od_weight_mismatch_msg] <;>
    exact h1.1.symm.trans h1.2

/-- C4 (witness): a destination column of a different family triggers the
id-mismatch error. -/
theorem C4_od_column_type_mismatch_check_witness :
    (origin_destination_run "integer_attr1" "integer_attr2" "text_attr1" "float_attr1").1
      = .error (.column_type od_id_mismatch_msg) :=
  (C4_od_column_type_mismatch_check "integer_attr1" "integer_attr2" "text_attr1"
    "float_attr1").1.mpr (by decide)

/-- C5: the relation-layer attribute mapping assigns the two id slots of the
unique-id family and puts the weight into suffix 1 of its own family, or,
when that key is already taken (exactly when the families coincide, so
suffixes 1 and 2 are taken), into the first free suffix 3; the resulting
mapping always has three pairwise distinct keys mapped to origin,
destination and weight. -/
theorem C5_relation_mapping_weight_slot (u w : String) :
    build_attribute_mapping_relation u w
      = [(u ++ "_attr1", "origin"), (u ++ "_attr2", "destination"),
          ((if w = u then u ++ "_attr3" else w ++ "_attr1"), "weight")]
    ∧ ((build_attribute_mapping_relation u w).map Prod.fst).Nodup := by
  have probe3 : ∀ v : String, probe_attr v [v ++ "_attr1", v ++ "_attr2"] = 3 := by
    intro v
    have e1 : (("_attr" : String) ++ toString 1) = "_attr1" := by decide
    have e2 : (("_attr" : String) ++ toString 2) = "_attr2" := by decide
    have e3 : (("_attr" : String) ++ toString 3) = "_attr3" := by decide
    have hne : (v ++ "_attr3") ∉ [v ++ "_attr1", v ++ "_attr2"] := by
      intro h
      rcases List.mem_cons.mp h with h1 | h1
      · exact absurd (string_append_left_cancel h1) (by decide)
      · rcases List.mem_cons.mp h1 with h2 | h2
        · exact absurd (string_append_left_cancel h2) (by decide)
        · simp at h2
    show probe_attr_go v [v ++ "_attr1", v ++ "_attr2"] 3 1 = 3
    rw [probe_attr_go]
    rw [String.append_assoc, e1, if_pos (List.mem_cons_self _ _)]
    rw [probe_attr_go]
    rw [String.append_assoc, e2, if_pos (by simp)]
    rw [probe_attr_go]
    rw [String.append_assoc, e3, if_neg hne]
  have hmain : build_attribute_mapping_relation u w
      = [(u ++ "_attr1", "origin"), (u ++ "_attr2", "destination"),
          ((if w = u then u ++ "_attr3" else w ++ "_attr1"), "weight")] := by
    by_cases hw : w = u
    · subst hw
      unfold build_attribute_mapping_relation
      simp only [List.map]
      rw [if_pos (List.mem_cons_self _ _)]
      rw [probe3 w]
      rw [String.append_assoc, (by decide : (("_attr" : String) ++ toString 3) = "_attr3")]
      simp
    · have hmem : (w ++ "_attr1") ∉ [u ++ "_attr1", u ++ "_attr2"] := by
        intro h
        rcases List.mem_cons.mp h with h1 | h1
        · exact hw (string_append_inj_right h1 rfl).1
        · rcases List.mem_cons.mp h1 with h2 | h2
          · exact absurd (string_append_inj_right h2 rfl).2 (by decide)
          · simp at h2
      unfold build_attribute_mapping_relation
      simp only [List.map]
      rw [if_neg hmem, if_neg hw]
      simp
  refine ⟨hmain, ?_⟩
  rw [hmain]
  by_cases hw : w = u
  · subst hw
    simp only [List.map, if_pos rfl]
    refine List.nodup_cons.mpr ⟨?_, List.nodup_cons.mpr ⟨?_,
      List.nodup_cons.mpr ⟨by simp, List.nodup_nil⟩⟩⟩
    · intro h
      rcases List.mem_cons.mp h with h1 | h1
      · exact absurd (string_append_left_cancel h1) (by decide)
      · rcases List.mem_cons.mp h1 with h2 | h2
        · exact absurd (string_append_left_cancel h2) (by decide)
        · simp at h2
    · intro h
      rcases List.mem_cons.mp h with h1 | h1
      · exact absurd (string_append_left_cancel h1) (by decide)
      · simp at h1
  · simp only [List.map, if_neg hw]
    refine List.nodup_cons.mpr ⟨?_, List.nodup_cons.mpr ⟨?_,
      List.nodup_cons.mpr ⟨by simp, List.nodup_nil⟩⟩⟩
    · intro h
      rcases List.mem_cons.mp h with h1 | h1
      · exact absurd (string_append_left_cancel h1) (by decide)
      · rcases List.mem_cons.mp h1 with h2 | h2
        · exact hw (string_append_inj_right h2 rfl).1.symm
        · simp at h2
    · intro h
      rcases List.mem_cons.mp h with h1 | h1
      · exact absurd (string_append_inj_right h1 rfl).2 (by decide)
      · simp at h1

/-- C9 (counterexample): the base validator accepts a request supplying a
latitude list together with a layer id when the longitude list is absent:
the coordinate branch is skipped because not both lists are truthy, and
the second check passes because a layer id is present. -/
theorem C9_partial_coords_with_layer_accepted :
    check_either_coords_or_layer_project_id (some [0]) none (some "7c1a2ebe") = .ok () :=
  rfl

/-- C9 (amended): a starting-points request passes the base validator exactly
when either both coordinate lists are truthy (non-empty), no layer id is
given, the lists have equal length and all values are within WGS84
bounds — or a layer id is given and not both coordinate lists are truthy
(a single coordinate list alongside a layer id is accepted). -/
theorem C9_validator_accepts_iff (lat lon : Option (List ℚ)) (layer_project_id : Option String) :
    check_either_coords_or_layer_project_id lat lon layer_project_id = .ok () ↔
      ((truthy_list lat = true ∧ truthy_list lon = true ∧ layer_project_id = none
          ∧ (lat.getD []).length = (lon.getD []).length
          ∧ (∀ v ∈ lat.getD [], -90 ≤ v ∧ v ≤ 90)
          ∧ (∀ v ∈ lon.getD [], -180 ≤ v ∧ v ≤ 180))
        ∨ (layer_project_id ≠ none ∧ ¬(truthy_list lat = true ∧ truthy_list lon = true))) := by
  unfold check_either_coords_or_layer_project_id
  by_cases h1 : (truthy_list lat && truthy_list lon) = true
  · rw [if_pos h1]
    have hlat : truthy_list lat = true := (Bool.and_eq_true _ _ |>.mp h1).1
    have hlon : truthy_list lon = true := (Bool.and_eq_true _ _ |>.mp h1).2
    by_cases h2 : layer_project_id.isSome = true
    · rw [if_pos h2]
      constructor
      · intro hcontra; exact Except.noConfusion hcontra
      · rintro (⟨-, -, hnone, -⟩ | ⟨-, hc⟩)
        · rw [hnone] at h2; simp at h2
        · exact (hc ⟨hlat, hlon⟩).elim
    · rw [if_neg h2]
      have h2n : layer_project_id = none := by
        cases layer_project_id with
        | none => rfl
        | some x => simp at h2
      by_cases h3 : (lat.getD []).length ≠ (lon.getD []).length
      · rw [if_pos h3]
        constructor
        · intro hcontra; exact Except.noConfusion hcontra
        · rintro (⟨-, -, -, hlen, -⟩ | ⟨hc, -⟩)
          · exact (h3 hlen).elim
          · exact (hc h2n).elim
      · rw [if_neg h3]
        push_neg at h3
        by_cases h4 : (lat.getD []).any (fun v => decide (v < -90) || decide (v > 90)) = true
        · rw [if_pos h4]
          simp only [List.any_eq_true, Bool.or_eq_true, decide_eq_true_eq] at h4
          obtain ⟨v, hv, hbad⟩ := h4
          constructor
          · intro hcontra; exact Except.noConfusion hcontra
          · rintro (⟨-, -, -, -, hb, -⟩ | ⟨-, hc⟩)
            · rcases hbad with hb1 | hb1
              · exact absurd hb1 (not_lt.mpr (hb v hv).1)
              · exact absurd hb1 (not_lt.mpr (hb v hv).2)
            · exact (hc ⟨hlat, hlon⟩).elim
        · rw [if_neg h4]
          by_cases h5 : (lon.getD []).any (fun v => decide (v < -180) || decide (v > 180)) = true
          · rw [if_pos h5]
            simp only [List.any_eq_true, Bool.or_eq_true, decide_eq_true_eq] at h5
            obtain ⟨v, hv, hbad⟩ := h5
            constructor
            · intro hcontra; exact Except.noConfusion hcontra
            · rintro (⟨-, -, -, -, -, hb⟩ | ⟨-, hc⟩)
              · rcases hbad with hb1 | hb1
                · exact absurd hb1 (not_lt.mpr (hb v hv).1)
                · exact absurd hb1 (not_lt.mpr (hb v hv).2)
              · exact (hc ⟨hlat, hlon⟩).elim
          · rw [if_neg h5]
            rw [if_neg (by simp [hlat, hlon])]
            simp only [List.any_eq_true, Bool.or_eq_true, decide_eq_true_eq] at h4 h5
            push_neg at h4 h5
            constructor
            · intro _
              exact Or.inl ⟨hlat, hlon, h2n, h3, h4, h5⟩
            · intro _; rfl
  · rw [if_neg h1]
    have h1f : (truthy_list lat && truthy_list lon) = false := by
      cases hq : (truthy_list lat && truthy_list lon) with
      | false => rfl
      | true => exact absurd hq h1
    by_cases h2 : layer_project_id.isNone = true
    · rw [if_pos (by rw [h1f, h2]; rfl)]
      constructor
      · intro hcontra; exact Except.noConfusion hcontra
      · rintro (⟨hlat, hlon, -⟩ | ⟨hc, -⟩)
        · exact (h1 (by rw [hlat, hlon]; rfl)).elim
        · exact (hc (Option.isNone_iff_eq_none.mp h2)).elim
    · rw [if_neg (by rw [h1f]; simp [h2])]
      constructor
      · intro _
        refine Or.inr ⟨?_, ?_⟩
        · intro hc
          rw [hc] at h2
          simp at h2
        · intro hc
          exact h1 (by rw [hc.1, hc.2]; rfl)
      · intro _; rfl

/-- C9 (witness): a well-formed single-point coordinate request is accepted. -/
theorem C9_validator_accepts_iff_witness :
    check_either_coords_or_layer_project_id (some [1]) (some [2]) none = .ok () :=
  (C9_validator_accepts_iff (some [1]) (some [2]) none).mpr
    (Or.inl ⟨rfl, rfl, rfl, rfl,
      by intro v hv; simp only [Option.getD_some, List.mem_singleton] at hv; subst hv; norm_num,
      by intro v hv; simp only [Option.getD_some, List.mem_singleton] at hv; subst hv; norm_num⟩)

/-- C10: an active-mobility request carrying both coordinate lists is rejected
by the pure request validators, before any job or database statement,
whenever either list holds more than 1000 entries. -/
theorem C10_active_mobility_max_1000 (lat lon : Option (List ℚ))
    (layer_project_id : Option String)
    (hlat : truthy_list lat = true) (hlon : truthy_list lon = true)
    (hlen : (lat.getD []).length > 1000 ∨ (lon.getD []).length > 1000) :
    ∃ msg, validate_starting_points_active_mobility lat lon layer_project_id = .error msg := by
  have hc : ∃ msg, check_starting_points lat lon = .error msg := by
    unfold check_starting_points
    rw [hlat, hlon]
    rw [if_pos (show (true && true) = true from rfl)]
    by_cases h2 : (lat.getD []).length > 1000
    · rw [if_pos h2]
      exact ⟨_, rfl⟩
    · rcases hlen with h | h
      · exact absurd h h2
      · rw [if_neg h2, if_pos h]
        exact ⟨_, rfl⟩
  unfold validate_starting_points_active_mobility
  cases hres : check_either_coords_or_layer_project_id lat lon layer_project_id with
  | error e => exact ⟨e, rfl⟩
  | ok _ => exact hc

/-- C10 (witness): 1001 coordinate pairs are rejected. -/
theorem C10_active_mobility_max_1000_witness :
    ∃ msg, validate_starting_points_active_mobility (some (List.replicate 1001 0))
      (some (List.replicate 1001 0)) none = .error msg :=
  C10_active_mobility_max_1000 _ _ _
    (by rw [List.replicate_succ]; rfl)
    (by rw [List.replicate_succ]; rfl)
    (Or.inl (by rw [show ((some (List.replicate 1001 (0 : ℚ))).getD []) = List.replicate 1001 0
        from rfl, List.length_replicate]; norm_num))

theorem filter_ne_dash_eq_self {l : List Char} (h : ∀ ch ∈ l, ch ≠ '-') :
    l.filter (fun c => c != '-') = l := by
  rw [List.filter_eq_self]
  intro a ha
  simpa using h a ha

theorem strip_dashes_canonical_data {s : String} {a b c d e : List Char}
    (na : ∀ ch ∈ a, ch ≠ '-') (nb : ∀ ch ∈ b, ch ≠ '-') (nc : ∀ ch ∈ c, ch ≠ '-')
    (nd : ∀ ch ∈ d, ch ≠ '-') (ne' : ∀ ch ∈ e, ch ≠ '-')
    (hs : s.data = a ++ '-' :: (b ++ '-' :: (c ++ '-' :: (d ++ '-' :: e)))) :
    (strip_dashes s).data = a ++ (b ++ (c ++ (d ++ e))) := by
  show s.data.filter (fun c => c != '-') = _
  rw [hs]
  simp only [List.filter_append, List.filter_cons]
  rw [filter_ne_dash_eq_self na, filter_ne_dash_eq_self nb, filter_ne_dash_eq_self nc,
    filter_ne_dash_eq_self nd, filter_ne_dash_eq_self ne']
  norm_num

theorem strip_dashes_inj {s t : String} (hs : IsCanonicalUuid s) (ht : IsCanonicalUuid t)
    (h : strip_dashes s = strip_dashes t) : s = t := by
  obtain ⟨a1, b1, c1, d1, e1, la1, lb1, lc1, ld1, le1, na1, nb1, nc1, nd1, ne1, hs'⟩ := hs
  obtain ⟨a2, b2, c2, d2, e2, la2, lb2, lc2, ld2, le2, na2, nb2, nc2, nd2, ne2, ht'⟩ := ht
  have hd1 := strip_dashes_canonical_data na1 nb1 nc1 nd1 ne1 hs'
  have hd2 := strip_dashes_canonical_data na2 nb2 nc2 nd2 ne2 ht'
  have hcat : a1 ++ (b1 ++ (c1 ++ (d1 ++ e1))) = a2 ++ (b2 ++ (c2 ++ (d2 ++ e2))) := by
    rw [← hd1, ← hd2, h]
  obtain ⟨ha, hcat⟩ := List.append_inj hcat (la1.trans la2.symm)
  obtain ⟨hb, hcat⟩ := List.append_inj hcat (lb1.trans lb2.symm)
  obtain ⟨hc, hcat⟩ := List.append_inj hcat (lc1.trans lc2.symm)
  obtain ⟨hdd, he⟩ := List.append_inj hcat (ld1.trans ld2.symm)
  apply String.ext
  rw [hs', ht', ha, hb, hc, hdd, he]

/-- C8: the three job-scoped temp-table names are deterministic functions of
the job id with its dashes (the only non-alphanumeric characters of a
canonically formatted UUID) stripped; distinct job ids yield distinct
names of each kind, and the three kinds never collide with each other, so
concurrent jobs never share a temp-table name. -/
theorem C8_temp_table_names_collision_free :
    (∀ i j : String, IsCanonicalUuid i → IsCanonicalUuid j → i ≠ j →
        table_name_total_stats i ≠ table_name_total_stats j
        ∧ table_name_grouped_stats i ≠ table_name_grouped_stats j
        ∧ table_name_pre_grouped i ≠ table_name_pre_grouped j)
    ∧ (∀ i j : String,
        table_name_total_stats i ≠ table_name_grouped_stats j
        ∧ table_name_total_stats i ≠ table_name_pre_grouped j
        ∧ table_name_grouped_stats i ≠ table_name_pre_grouped j) := by
  constructor
  · intro i j hi hj hne
    refine ⟨?_, ?_, ?_⟩ <;>
      · intro h
        exact hne (strip_dashes_inj hi hj (string_append_left_cancel h))
  · intro i j
    refine ⟨?_, ?_, ?_⟩
    · exact string_append_ne_at 9 (by decide) (by decide) (by decide) _ _
    · exact string_append_ne_at 9 (by decide) (by decide) (by decide) _ _
    · exact string_append_ne_at 9 (by decide) (by decide) (by decide) _ _

/-- C8 (witness): two concrete UUID job ids differing in the last character
get distinct total-stats table names. -/
theorem C8_temp_table_names_collision_free_witness :
    table_name_total_stats "11111111-2222-3333-4444-555555555555"
      ≠ table_name_total_stats "11111111-2222-3333-4444-555555555556" :=
  (C8_temp_table_names_collision_free.1 _ _
    ⟨"11111111".data, "2222".data, "3333".data, "4444".data, "555555555555".data,
      by decide, by decide, by decide, by decide, by decide,
      by decide, by decide, by decide, by decide, by decide, by decide⟩
    ⟨"11111111".data, "2222".data, "3333".data, "4444".data, "555555555556".data,
      by decide, by decide, by decide, by decide, by decide,
      by decide, by decide, by decide, by decide, by decide, by decide⟩
    (by decide)).1

theorem mem_od_join_pairs {geom : List GeomFeature} {matrix : List MatrixRow} {x : ℤ × ℤ} :
    x ∈ (od_join geom matrix).map (fun r => (r.1.origin, r.1.dest)) ↔
      x ∈ matrix.map (fun m => (m.origin, m.dest)) ∧ pair_matched geom x = true := by
  simp only [od_join, pair_matched, List.mem_map, List.mem_flatMap, List.mem_filter,
    List.any_eq_true, Bool.and_eq_true, beq_iff_eq]
  constructor
  · rintro ⟨r, ⟨m, hm, o, ⟨hog, hou⟩, hr⟩, hx⟩
    obtain ⟨d, ⟨hdg, hdu⟩, rfl⟩ := hr
    subst hx
    exact ⟨⟨m, hm, rfl⟩, ⟨o, hog, hou⟩, ⟨d, hdg, hdu⟩⟩
  · rintro ⟨⟨m, hm, rfl⟩, ⟨o, hog, hou⟩, ⟨d, hdg, hdu⟩⟩
    exact ⟨(m, o, d), ⟨m, hm, o, ⟨hog, hou⟩, d, ⟨hdg, hdu⟩, rfl⟩, rfl⟩

theorem od_relation_rows_length (geom : List GeomFeature) (matrix : List MatrixRow) :
    (od_relation_rows geom matrix).length
      = ((matrix_pairs matrix).filter (pair_matched geom)).length := by
  rw [od_relation_rows, List.length_map]
  rw [od_relation_pairs, matrix_pairs]
  apply List.Perm.length_eq
  rw [List.perm_ext_iff_of_nodup (List.nodup_dedup _)
    ((List.nodup_dedup _).filter _)]
  intro p
  rw [List.mem_dedup, mem_od_join_pairs, List.mem_filter, List.mem_dedup]

theorem block_weight_sum (m : MatrixRow) (A B : List GeomFeature) :
    ((A.flatMap (fun o => B.map (fun d => (m, o, d)))).map
        (fun r : MatrixRow × GeomFeature × GeomFeature => r.1.weight)).sum
      = (A.length * B.length : ℕ) • m.weight := by
  induction A with
  | nil => simp
  | cons a A ih =>
    rw [List.flatMap_cons, List.map_append, List.sum_append, ih]
    have : ((B.map (fun d => (m, a, d))).map
        (fun r : MatrixRow × GeomFeature × GeomFeature => r.1.weight))
        = List.replicate B.length m.weight := by
      rw [List.map_map]
      rw [show ((fun r : MatrixRow × GeomFeature × GeomFeature => r.1.weight) ∘
        (fun d => (m, a, d))) = (fun _ => m.weight) from rfl]
      exact List.map_const' B m.weight
    rw [this, List.sum_replicate, List.length_cons]
    simp only [nsmul_eq_mul]
    push_cast
    ring

theorem filter_uid_length_one {geom : List GeomFeature} {u : ℤ}
    (hnodup : (geom.map GeomFeature.uid).Nodup)
    (h : geom.any (fun g => g.uid == u) = true) :
    (geom.filter (fun g => g.uid == u)).length = 1 := by
  induction geom with
  | nil => simp at h
  | cons g gs ih =>
    rw [List.map_cons, List.nodup_cons] at hnodup
    by_cases hg : (g.uid == u) = true
    · rw [List.filter_cons, if_pos hg]
      have hnil : gs.filter (fun g2 => g2.uid == u) = [] := by
        rw [List.filter_eq_nil_iff]
        intro g2 hg2 hbeq
        apply hnodup.1
        rw [beq_iff_eq] at hg hbeq
        rw [hg, ← hbeq]
        exact List.mem_map_of_mem GeomFeature.uid hg2
      rw [hnil]
      rfl
    · rw [List.filter_cons, if_neg hg]
      apply ih hnodup.2
      simp only [List.any_cons, Bool.or_eq_true] at h
      rcases h with h | h
      · exact absurd h hg
      · exact h

theorem join_filter_weight_sum {geom : List GeomFeature} (matrix : List MatrixRow)
    {p : ℤ × ℤ} (hnodup : (geom.map GeomFeature.uid).Nodup)
    (hmatch : pair_matched geom p = true) :
    (((od_join geom matrix).filter (fun r => (r.1.origin, r.1.dest) == p)).map
        (fun r => r.1.weight)).sum
      = ((matrix.filter (fun m => (m.origin, m.dest) == p)).map MatrixRow.weight).sum := by
  rw [pair_matched, Bool.and_eq_true] at hmatch
  induction matrix with
  | nil => rfl
  | cons m ms ih =>
    rw [od_join, List.flatMap_cons, ← od_join, List.filter_append, List.map_append,
      List.sum_append, ih, List.filter_cons]
    by_cases hp : ((m.origin, m.dest) == p) = true
    · rw [if_pos hp]
      have hall : ((geom.filter (fun o => o.uid == m.origin)).flatMap (fun o =>
          (geom.filter (fun d => d.uid == m.dest)).map (fun d => (m, o, d)))).filter
          (fun r => (r.1.origin, r.1.dest) == p)
          = (geom.filter (fun o => o.uid == m.origin)).flatMap (fun o =>
          (geom.filter (fun d => d.uid == m.dest)).map (fun d => (m, o, d))) := by
        rw [List.filter_eq_self]
        intro r hr
        simp only [List.mem_flatMap, List.mem_map] at hr
        obtain ⟨o, -, d, -, rfl⟩ := hr
        exact hp
      rw [hall, block_weight_sum]
      have hbeq : (m.origin, m.dest) = p := by rwa [← beq_iff_eq]
      have h1 : (geom.filter (fun o => o.uid == m.origin)).length = 1 := by
        apply filter_uid_length_one hnodup
        have := hmatch.1
        rw [← hbeq] at this
        exact this
      have h2 : (geom.filter (fun d => d.uid == m.dest)).length = 1 := by
        apply filter_uid_length_one hnodup
        have := hmatch.2
        rw [← hbeq] at this
        exact this
      rw [h1, h2, List.map_cons, List.sum_cons]
      norm_num
    · rw [if_neg hp]
      have hnone : ((geom.filter (fun o => o.uid == m.origin)).flatMap (fun o =>
          (geom.filter (fun d => d.uid == m.dest)).map (fun d => (m, o, d)))).filter
          (fun r => (r.1.origin, r.1.dest) == p) = [] := by
        rw [List.filter_eq_nil_iff]
        intro r hr
        simp only [List.mem_flatMap, List.mem_map] at hr
        obtain ⟨o, -, d, -, rfl⟩ := hr
        exact hp
      rw [hnone]
      simp

theorem od_relation_row_weight {geom : List GeomFeature} {matrix : List MatrixRow}
    (hnodup : (geom.map GeomFeature.uid).Nodup) :
    ∀ row ∈ od_relation_rows geom matrix,
      row.weight = ((matrix.filter (fun m =>
        (m.origin, m.dest) == (row.origin, row.dest))).map MatrixRow.weight).sum := by
  intro row hrow
  rw [od_relation_rows, List.mem_map] at hrow
  obtain ⟨p, hp, rfl⟩ := hrow
  have hmatch : pair_matched geom p = true := by
    rw [od_relation_pairs, List.mem_dedup, mem_od_join_pairs] at hp
    exact hp.2
  show _ = ((matrix.filter (fun m => (m.origin, m.dest) == (p.1, p.2))).map MatrixRow.weight).sum
  rw [show ((p.1, p.2) : ℤ × ℤ) = p from rfl]
  exact join_filter_weight_sum matrix hnodup hmatch

/-- C3 (counterexample): a matrix pair whose node ids are absent from the
geometry layer produces no relation row: with an empty geometry layer and
one matrix row there is one distinct matrix pair but zero inserted rows. -/
theorem C3_unmatched_pair_dropped :
    od_relation_rows [] [⟨1, 2, 5⟩] = [] ∧ (matrix_pairs [⟨1, 2, 5⟩]).length = 1 := by
  decide

/-- C3 (amended): the number of relation rows equals the number of distinct
(origin, destination) pairs of the matrix layer whose origin and
destination both match a geometry feature id (the inner join drops
unmatched pairs), and, when the unique-id column is really unique, each
row carries the summed weight over all matrix rows with that pair. -/
theorem C3_relation_rows_matched_pairs (geom : List GeomFeature) (matrix : List MatrixRow) :
    (od_relation_rows geom matrix).length
        = ((matrix_pairs matrix).filter (pair_matched geom)).length
    ∧ ((geom.map GeomFeature.uid).Nodup →
        ∀ row ∈ od_relation_rows geom matrix,
          row.weight = ((matrix.filter (fun m =>
            (m.origin, m.dest) == (row.origin, row.dest))).map MatrixRow.weight).sum) :=
  ⟨od_relation_rows_length geom matrix, fun h => od_relation_row_weight h⟩

/-- C3 (witness): two nodes and two matrix rows over the same pair yield one
relation row with the summed weight. -/
theorem C3_relation_rows_matched_pairs_witness :
    (od_relation_rows [⟨1, (0, 0)⟩, ⟨2, (1, 1)⟩] [⟨1, 2, 3⟩, ⟨1, 2, 4⟩]).length
        = ((matrix_pairs [⟨1, 2, 3⟩, ⟨1, 2, 4⟩]).filter
            (pair_matched [⟨1, (0, 0)⟩, ⟨2, (1, 1)⟩])).length
    ∧ ∀ row ∈ od_relation_rows [⟨1, (0, 0)⟩, ⟨2, (1, 1)⟩] [⟨1, 2, 3⟩, ⟨1, 2, 4⟩],
        row.weight = (([⟨1, 2, 3⟩, ⟨1, 2, 4⟩].filter (fun m : MatrixRow =>
          (m.origin, m.dest) == (row.origin, row.dest))).map MatrixRow.weight).sum :=
  ⟨(C3_relation_rows_matched_pairs [⟨1, (0, 0)⟩, ⟨2, (1, 1)⟩] [⟨1, 2, 3⟩, ⟨1, 2, 4⟩]).1,
    (C3_relation_rows_matched_pairs [⟨1, (0, 0)⟩, ⟨2, (1, 1)⟩] [⟨1, 2, 3⟩, ⟨1, 2, 4⟩]).2
      (by decide)⟩
